import Mathlib

/-
Formal model of the financial-agent query-routing, multi-tool execution and
PII-redaction core, embedded from `helper_modules/function_tools.py` and
`helper_modules/agent_coordinator.py`.

Strings are modelled as `List Char`.  External capabilities (the language-model
completion service, the sqlite database, the market-data HTTP fetch) are
modelled as explicit function parameters returning `Except errorMessage value`,
where `Except.error` stands for a raised Python exception carrying `str(e)`.
-/

set_option maxRecDepth 8000

/-- Character-list view of a string literal. -/
def str (s : String) : List Char := s.data

/-- The apostrophe character (used by Python `repr` of string lists). -/
def apos : Char := Char.ofNat 39

/-- Python `s.lower()` (ASCII). -/
def lowerStr (s : List Char) : List Char := s.map Char.toLower

/-- Python `s.strip()`: drop leading and trailing whitespace. -/
def pyStrip (s : List Char) : List Char :=
  ((s.dropWhile Char.isWhitespace).reverse.dropWhile Char.isWhitespace).reverse

/-- Python substring test `pat in s`. -/
def occurs (pat : List Char) : List Char → Bool
  | [] => pat.isEmpty
  | c :: rest => pat.isPrefixOf (c :: rest) || occurs pat rest

/-- Scanning loop of Python `s.replace(pat, rep)` for a non-empty `pat`:
replace every (leftmost, non-overlapping) occurrence.  Fuel-indexed so that
the recursion is structural: every step consumes at least one character, so
`s.length` fuel always suffices. -/
def replaceCore (pat rep : List Char) : Nat → List Char → List Char
  | 0, s => s
  | _ + 1, [] => []
  | fuel + 1, c :: rest =>
    if pat.isPrefixOf (c :: rest) then
      rep ++ replaceCore pat rep fuel (rest.drop (pat.length - 1))
    else
      c :: replaceCore pat rep fuel rest

/-- Python `s.replace(pat, rep)`.  For an empty pattern Python interleaves
`rep` before every character and at the end. -/
def pyReplace (s pat rep : List Char) : List Char :=
  if pat = [] then rep ++ s.foldr (fun c acc => c :: (rep ++ acc)) []
  else replaceCore pat rep s.length s

/-- Python `line.split(sep, 1)` when `sep` is present: the text before the
first `sep` and the text after it; `none` when `sep` is absent (Python would
return a one-element list there). -/
def splitOnce (sep : Char) : List Char → Option (List Char × List Char)
  | [] => none
  | c :: rest =>
    if c = sep then some ([], rest)
    else
      match splitOnce sep rest with
      | some (pre, post) => some (c :: pre, post)
      | none => none

/-- Scanner for Python `re.findall(r"q([^q]+)q", s)` with quote character `q`:
left-to-right, non-overlapping quoted runs with non-empty content.  The
accumulator holds the reversed content of a currently open quoted run. -/
def findQuotedAux (q : Char) : List Char → Option (List Char) → List (List Char)
  | [], _ => []
  | c :: rest, none =>
    if c = q then findQuotedAux q rest (some []) else findQuotedAux q rest none
  | c :: rest, some acc =>
    if c = q then
      if acc = [] then findQuotedAux q rest (some [])
      else acc.reverse :: findQuotedAux q rest none
    else findQuotedAux q rest (some (c :: acc))

/-- Python `re.findall(r"q([^q]+)q", s)` for quote character `q`. -/
def findQuoted (q : Char) (s : List Char) : List (List Char) := findQuotedAux q s none

/-- Maximal digit runs of `s`, i.e. Python `re.findall(r"[0-9]+", s)`.
The accumulator holds the reversed digits of the current run. -/
def digitRunsAux : List Char → List Char → List (List Char)
  | [], acc => if acc = [] then [] else [acc.reverse]
  | c :: rest, acc =>
    if c.isDigit then digitRunsAux rest (c :: acc)
    else (if acc = [] then [] else [acc.reverse]) ++ digitRunsAux rest []

/-- Decimal value of a digit run (Python `int(run)`). -/
def digitsToNat (ds : List Char) : Nat :=
  ds.foldl (fun n c => n * 10 + (c.toNat - (48 : Nat))) 0

/-- Python `[int(x) for x in re.findall(r"[0-9]+", s)]`. -/
def extractInts (s : List Char) : List Nat := (digitRunsAux s []).map digitsToNat

/-- Decimal rendering of a natural number (Python `str(n)` / f-string). -/
def natStr (n : Nat) : List Char := (Nat.repr n).data

/-- Python `str(cols)` for a list of plain strings: `['a', 'b']`. -/
def pyReprStrList (xs : List (List Char)) : List Char :=
  str "[" ++ List.intercalate (str ", ") (xs.map (fun x => apos :: x ++ [apos])) ++ str "]"

/-- One sorted-insert step keeping the list strictly ascending (duplicates
dropped). -/
def insertSorted (x : Nat) : List Nat → List Nat
  | [] => [x]
  | y :: ys =>
    if x = y then y :: ys
    else if x < y then x :: y :: ys
    else y :: insertSorted x ys

/-- Python `sorted(list(set(xs)))`: the strictly ascending list of the distinct
elements of `xs`. -/
def sortDedup (xs : List Nat) : List Nat := xs.foldl (fun acc x => insertSorted x acc) []

/-
### PIIGuard: detection and masking (`function_tools.py`, `pii_protection_tool`)
-/

/-- The fixed PII field-name lexicon `pii_patterns` of
`detect_pii_fields` in `function_tools.py` (lines 499-510). -/
def piiPatterns : List (List Char) :=
  [str "email", str "email_address", str "e_mail", str "e-mail", str "email_addr",
   str "phone", str "phone_number", str "telephone", str "mobile", str "cell",
   str "contact_number",
   str "first_name", str "last_name", str "full_name", str "customer_name",
   str "name", str "given_name", str "surname",
   str "address", str "street_address", str "mailing_address", str "home_address",
   str "physical_address",
   str "ssn", str "social_security_number", str "tax_id", str "tax_id_number",
   str "ssn_number"]

/-- Per-field test of `detect_pii_fields` (`function_tools.py` lines 514-527):
a field is flagged when its lower-cased, stripped form is an exact lexicon
entry, or some lexicon entry occurs in it as a substring. -/
def piiNameHit (fieldName : List Char) : Bool :=
  let fl := pyStrip (lowerStr fieldName)
  piiPatterns.contains fl || piiPatterns.any (fun p => occurs p fl)

/-- `detect_pii_fields` (`function_tools.py` lines 496-529).  The Python
function returns a `set` of the original field names; we keep the flagged
names as a list in input order (every use in the source only tests membership
and emptiness, so this is observationally equivalent). -/
def detectPiiFields (fieldNames : List (List Char)) : List (List Char) :=
  fieldNames.filter piiNameHit

/-- `mask_field_value` (`function_tools.py` lines 531-581): category-specific
masking keyed on substrings of the lower-cased field name.  Note the early
`if not value: return str(value)` which returns an empty value unchanged
before any category branch runs. -/
def maskFieldValue (fieldName value : List Char) : List Char :=
  if value = [] then value
  else
    let fl := lowerStr fieldName
    if occurs (str "email") fl then
      match value.splitOn '@' with
      | [_, domain] => str "***@" ++ domain
      | _ => str "***"
    else if occurs (str "phone") fl || occurs (str "telephone") fl then
      let digits := value.filter Char.isDigit
      if digits.length ≥ 4 then str "***-***-" ++ digits.drop (digits.length - 4)
      else str "***-***-****"
    else if occurs (str "name") fl then
      if value.length > 0 then List.replicate (min value.length 4) '*'
      else str "****"
    else if occurs (str "address") fl then
      if value.length > 5 then value.take 2 ++ List.replicate (value.length - 2) '*'
      else str "***"
    else if occurs (str "ssn") fl || occurs (str "social") fl then
      let digits := value.filter Char.isDigit
      if digits.length ≥ 4 then str "***-**-" ++ digits.drop (digits.length - 4)
      else str "***-**-****"
    else
      if value.length > 0 then List.replicate (min value.length 4) '*'
      else str "****"

/-- Value of the `column_names` argument after parsing.  `ast.literal_eval`
can produce any Python value; the flow of this program only ever reaches a
list of strings (well-formed input) or a non-iterable value such as an `int`
(which makes the subsequent field iteration raise `TypeError`), so the model
covers exactly these two shapes. -/
inductive PyVal where
  | strs (cols : List (List Char))
  | intVal (n : Nat)
deriving DecidableEq

/-- Item loop of the list-literal parser: after the opening `[`, parse
whitespace-separated quoted strings (single or double quotes, no escapes)
separated by commas, allowing a trailing comma, up to the closing `]` at the
end of the input.  Fuel-indexed; each step consumes at least one character, so
`length + 1` fuel is always enough. -/
def parseItems : Nat → List Char → Option (List (List Char))
  | 0, _ => none
  | fuel + 1, s =>
    match s.dropWhile Char.isWhitespace with
    | [] => none
    | c :: rest =>
      if c = ']' then
        if rest.dropWhile Char.isWhitespace = [] then some [] else none
      else if c = apos ∨ c = '"' then
        match splitOnce c rest with
        | none => none
        | some (content, post) =>
          match post.dropWhile Char.isWhitespace with
          | ',' :: more => (parseItems fuel more).map (content :: ·)
          | ']' :: more =>
            if more.dropWhile Char.isWhitespace = [] then some [content] else none
          | _ => none
      else none

/-- Model of `ast.literal_eval` restricted to the shapes this program meets:
a literal list of quoted strings yields `PyVal.strs`, a bare integer literal
yields `PyVal.intVal`, anything else is a parse exception (`none`). -/
def pyParseLiteral (s : List Char) : Option PyVal :=
  match pyStrip s with
  | '[' :: rest => (parseItems (rest.length + 1) rest).map PyVal.strs
  | t => if t ≠ [] ∧ t.all Char.isDigit then some (PyVal.intVal (digitsToNat t)) else none

/-- Column-name parsing of `pii_protection_tool` (`function_tools.py` lines
584-600): `ast.literal_eval`, then on exception single-quote regex extraction,
then double-quote regex extraction, then a comma split with per-item strip.
(The `isinstance(column_names, str)` test is always true here: the tool's
signature declares `column_names: str`.) -/
def parseColsVal (colsStr : List Char) : PyVal :=
  match pyParseLiteral colsStr with
  | some v => v
  | none =>
    let c1 := findQuoted apos colsStr
    if c1 ≠ [] then PyVal.strs c1
    else
      let c2 := findQuoted '"' colsStr
      if c2 ≠ [] then PyVal.strs c2
      else PyVal.strs ((colsStr.splitOn ',').map pyStrip)

/-- Inner per-column step of the line loop of `pii_protection_tool`
(`function_tools.py` lines 618-631): when the column name occurs in the
current line, re-split the line at its first colon, and if the field label is
flagged, replace every occurrence of the (stripped) value text with its mask
and record the field for the disclosure notice. -/
def maskLineStep (pii : List (List Char)) (st : List Char × List (List Char))
    (col : List Char) : List Char × List (List Char) :=
  if occurs col st.1 then
    match splitOnce ':' st.1 with
    | some (pre, post) =>
      let fieldName := pyStrip pre
      let value := pyStrip post
      if pii.contains fieldName then
        let masked := maskFieldValue fieldName value
        (pyReplace st.1 value masked,
         if st.2.contains fieldName then st.2 else st.2 ++ [fieldName])
      else (st.1, st.2)
    | none => (st.1, st.2)
  else (st.1, st.2)

/-- Per-line processing of `pii_protection_tool` (`function_tools.py` lines
614-633): a line is touched only when it contains a colon and some column
name; the column loop then runs over the (mutating) line. -/
def maskLine (cols pii : List (List Char)) (line : List Char)
    (notice : List (List Char)) : List Char × List (List Char) :=
  if occurs [':'] line && cols.any (fun c => occurs c line) then
    cols.foldl (maskLineStep pii) (line, notice)
  else (line, notice)

/-- Body of `pii_protection_tool` after column parsing (`function_tools.py`
lines 602-642): detect PII fields, return the input unchanged when none are
flagged, otherwise mask line by line and append the disclosure notice naming
each masked field once. -/
def applyMasking (databaseResults : List Char) (cols : List (List Char)) : List Char :=
  let pii := detectPiiFields cols
  if pii = [] then databaseResults
  else
    let lines := databaseResults.splitOn '\n'
    let res := lines.foldl
      (fun (st : List (List Char) × List (List Char)) l =>
        let r := maskLine cols pii l st.2
        (st.1 ++ [r.1], r.2))
      ([], [])
    let protectedResult := List.intercalate ['\n'] res.1
    if res.2 ≠ [] then
      protectedResult ++
        str "\n\n[PII Protection Applied] The following fields have been masked for privacy: " ++
        List.intercalate (str ", ") res.2
    else protectedResult

/-- `str(e)` for the `TypeError` raised by iterating a non-iterable parse
result inside `detect_pii_fields`. -/
def intIterErrorMsg : List Char :=
  [apos] ++ str "int" ++ [apos] ++ str " object is not iterable"

/-- The annotation appended by the outer exception handler of
`pii_protection_tool` (`function_tools.py` lines 644-647). -/
def piiErrorNotice (e : List Char) : List Char :=
  str "\n\n[PII Protection Error] Could not apply masking: " ++ e

/-- `pii_protection_tool` (`function_tools.py` lines 482-647).  The outer
`try/except` is modelled by the match: a parse result that is not a list makes
the field iteration raise, which the handler converts into the original data
with the error notice appended. -/
def piiProtectionTool (databaseResults colsStr : List Char) : List Char :=
  match parseColsVal colsStr with
  | PyVal.strs cols => applyMasking databaseResults cols
  | PyVal.intVal _ => databaseResults ++ piiErrorNotice intIterErrorMsg

/-
### Coordinator-side PII detection and protection hook (`agent_coordinator.py`)
-/

/-- The PII field-name lexicon of `AgentCoordinator._detect_pii_fields`
(`agent_coordinator.py` lines 269-280), transcribed independently of
`piiPatterns` so that the two detection implementations can be compared. -/
def piiPatternsCoordinator : List (List Char) :=
  [str "email", str "email_address", str "e_mail", str "e-mail", str "email_addr",
   str "phone", str "phone_number", str "telephone", str "mobile", str "cell",
   str "contact_number",
   str "first_name", str "last_name", str "full_name", str "customer_name",
   str "name", str "given_name", str "surname",
   str "address", str "street_address", str "mailing_address", str "home_address",
   str "physical_address",
   str "ssn", str "social_security_number", str "tax_id", str "tax_id_number",
   str "ssn_number"]

/-- Per-field test of `_detect_pii_fields` (`agent_coordinator.py` lines
285-297). -/
def piiNameHitCoordinator (fieldName : List Char) : Bool :=
  let fl := pyStrip (lowerStr fieldName)
  piiPatternsCoordinator.contains fl ||
    piiPatternsCoordinator.any (fun p => occurs p fl)

/-- `AgentCoordinator._detect_pii_fields` (`agent_coordinator.py` lines
257-299), with the same list-for-set convention as `detectPiiFields`. -/
def detectPiiFieldsCoordinator (fieldNames : List (List Char)) : List (List Char) :=
  fieldNames.filter piiNameHitCoordinator

/-- The sentinel label. -/
def columnsTag : List Char := str "COLUMNS:"

/-- Tail of the match of `re.search(r"COLUMNS:\s*(.+)", result)` after the
literal tag: skip whitespace greedily, then capture up to the end of the line.
(The regex can also backtrack into a whitespace-only tail; that case produces
a whitespace-only group which fails column parsing just like `none` does, and
never arises for the sentinel format, so the model omits it.) -/
def matchTailAfterTag (t : List Char) : Option (List Char) :=
  let r := t.dropWhile Char.isWhitespace
  if r = [] then none
  else some (r.takeWhile (fun c => c ≠ '\n'))

/-- Scan of `re.search(r"COLUMNS:\s*(.+)", result)`: first position where the
tag matches and the group is non-empty. -/
def columnsSearch : List Char → Option (List Char)
  | [] => none
  | c :: rest =>
    if columnsTag.isPrefixOf (c :: rest) then
      match matchTailAfterTag ((c :: rest).drop columnsTag.length) with
      | some g => some g
      | none => columnsSearch rest
    else columnsSearch rest

/-- Steps of `_check_and_apply_pii_protection` after column extraction
(`agent_coordinator.py` lines 231-255): an empty (falsy) column list returns
the result unchanged; otherwise PII detection runs and, when fields are
flagged, the registered `pii_protection_tool` is called with
`column_names=str(cols)`.  (In the deployed registry built by
`create_function_tools` the PII tool is always present; the `pii_tool is
None` fallthrough therefore never fires and is not modelled.) -/
def checkCols (result : List Char) (cols : List (List Char)) : List Char :=
  if cols = [] then result
  else
    let pii := detectPiiFieldsCoordinator cols
    if pii ≠ [] then piiProtectionTool result (pyReprStrList cols)
    else result

/-- `AgentCoordinator._check_and_apply_pii_protection` (`agent_coordinator.py`
lines 189-255).  `Except.error` models the uncaught `TypeError` raised by
`_detect_pii_fields` when `ast.literal_eval` produced a non-zero integer (the
falsy `0` is stopped earlier by `if not cols`); that exception propagates to
the per-tool handler in `_route_query`. -/
def checkAndApplyPii (toolName result : List Char) : Except (List Char) (List Char) :=
  if !(occurs (str "database_query_tool") toolName) then Except.ok result
  else if !(occurs columnsTag result) then Except.ok result
  else
    match columnsSearch result with
    | none => Except.ok result
    | some g =>
      let columnsStr := pyStrip g
      match pyParseLiteral columnsStr with
      | some (PyVal.strs cols) => Except.ok (checkCols result cols)
      | some (PyVal.intVal n) =>
        if n = 0 then Except.ok result else Except.error intIterErrorMsg
      | none =>
        let c1 := findQuoted apos columnsStr
        let cols := if c1 ≠ [] then c1 else findQuoted '"' columnsStr
        Except.ok (checkCols result cols)

/-
### Tool catalog, routing and execution (`agent_coordinator.py`, `_route_query`)
-/

/-- Dispatch kind of a catalog entry (document tools vs function tools). -/
inductive ToolKind where
  | document
  | function
deriving DecidableEq

/-- A catalog entry: name, description, kind, and the tool's behaviour on a
query.  `Except.error e` models the tool call raising an exception with
message `e`. -/
structure Tool where
  name : List Char
  desc : List Char
  kind : ToolKind
  toolFn : List Char → Except (List Char) (List Char)

/-- Outcome payload of one tool inside the per-tool `try` of `_route_query`
(`agent_coordinator.py` lines 392-417): invoke the tool, pipe a successful
result through `_check_and_apply_pii_protection`, and let the handler turn any
exception into the `"Error: ..."` payload. -/
def afterRun (q : List Char) (t : Tool) : List Char :=
  match t.toolFn q with
  | Except.error e => str "Error: " ++ e
  | Except.ok r =>
    match checkAndApplyPii t.name r with
    | Except.ok s => s
    | Except.error e => str "Error: " ++ e

/-- Whether `_route_query` dispatches a selected tool at all: document tools
always run; a function tool is skipped exactly when it falls through to the
`'pii' in tool_name.lower(): continue` branch (`agent_coordinator.py` lines
394-408). -/
def isDispatch (t : Tool) : Bool :=
  match t.kind with
  | ToolKind.document => true
  | ToolKind.function =>
    let nl := lowerStr t.name
    occurs (str "database") nl || occurs (str "market") nl || !(occurs (str "pii") nl)

/-- One iteration of the execution loop of `_route_query`: `none` when the
tool is the (skipped) PII tool, otherwise the `(name, description, result)`
entry appended to `results`. -/
def executeOne (q : List Char) (t : Tool) : Option (List Char × List Char × List Char) :=
  match t.kind with
  | ToolKind.document => some (t.name, t.desc, afterRun q t)
  | ToolKind.function =>
    let nl := lowerStr t.name
    if occurs (str "database") nl then some (t.name, t.desc, afterRun q t)
    else if occurs (str "market") nl then some (t.name, t.desc, afterRun q t)
    else if occurs (str "pii") nl then none
    else some (t.name, t.desc, afterRun q t)

/-- The execution loop of `_route_query` (`agent_coordinator.py` lines
386-419) over the selected indices (the `idx < len(all_tools)` guard is the
`List.get?` lookup). -/
def executeSelected (tools : List Tool) (q : List Char) (sel : List Nat) :
    List (List Char × List Char × List Char) :=
  sel.filterMap (fun i => (tools.get? i).bind (executeOne q))

/-- Keyword synonym set for the structured-data tool in the lexical fallback
(`agent_coordinator.py` line 369). -/
def dbKeywords : List (List Char) :=
  [str "customer", str "portfolio", str "holding", str "database"]

/-- Keyword synonym set for the market tool (`agent_coordinator.py` line 371). -/
def marketKeywords : List (List Char) :=
  [str "price", str "stock", str "market", str "current"]

/-- Outer keyword guard of the document-tool branch (`agent_coordinator.py`
line 374): note that it contains the company names and tickers themselves in
addition to the business-context words. -/
def docOuterKeywords : List (List Char) :=
  [str "apple", str "aapl", str "google", str "googl", str "tesla", str "tsla",
   str "company", str "business", str "strategy", str "revenue"]

/-- Per-tool decision of the lexical fallback of `_route_query`
(`agent_coordinator.py` lines 366-381), on the lower-cased query `ql` and the
lower-cased tool name `nl`. -/
def fallbackHit (ql nl : List Char) : Bool :=
  if occurs (str "database") nl && dbKeywords.any (fun kw => occurs kw ql) then true
  else if occurs (str "market") nl && marketKeywords.any (fun kw => occurs kw ql) then true
  else if occurs (str "10k") nl || occurs (str "filing") nl then
    if docOuterKeywords.any (fun kw => occurs kw ql) then
      if occurs (str "aapl") nl && (occurs (str "apple") ql || occurs (str "aapl") ql) then true
      else if occurs (str "googl") nl &&
          (occurs (str "google") ql || occurs (str "googl") ql || occurs (str "alphabet") ql) then true
      else if occurs (str "tsla") nl && (occurs (str "tesla") ql || occurs (str "tsla") ql) then true
      else false
    else false
  else false

/-- The lexical fallback selection of `_route_query`: indices of the tools
whose name fires on the query keywords. -/
def lexicalFallback (tools : List Tool) (q : List Char) : List Nat :=
  let ql := lowerStr q
  tools.enum.filterMap (fun p => if fallbackHit ql (lowerStr p.2.name) then some p.1 else none)

/-- Indices parsed from the completion response in `_route_query`
(`agent_coordinator.py` lines 354-362): every integer literal in the text,
kept when in range. -/
def validIndices (tools : List Tool) (txt : List Char) : List Nat :=
  (extractInts (pyStrip txt)).filter (fun i => i < tools.length)

/-- `AgentCoordinator._route_query` (`agent_coordinator.py` lines 301-423).
`llmResp` is the outcome of the `self.llm.complete(prompt)` call; the outer
`except` catches a raised completion call (nothing later in the body can
raise: per-tool errors are caught by the inner handler) and returns `[]`. -/
def routeQuery (tools : List Tool) (q : List Char)
    (llmResp : Except (List Char) (List Char)) :
    List (List Char × List Char × List Char) :=
  match llmResp with
  | Except.error _ => []
  | Except.ok txt =>
    let valid := validIndices tools txt
    let chosen := if valid = [] then lexicalFallback tools q else valid
    executeSelected tools q (sortDedup chosen)

/-- The fixed reply of `query()` when routing produced no results
(`agent_coordinator.py` line 458). -/
def unableMsg : List Char :=
  str "Unable to process query. No appropriate tools found or error occurred."

/-- The deterministic synthesis fallback of `query()` (`agent_coordinator.py`
lines 494-498). -/
def synthFallback (question : List Char)
    (results : List (List Char × List Char × List Char)) : List Char :=
  str "Query: " ++ question ++ str "\n\n" ++
    results.foldl
      (fun acc r => acc ++ str "From " ++ r.1 ++ str ":\n" ++ r.2.2 ++ str "\n\n") []

/-- `AgentCoordinator.query` (`agent_coordinator.py` lines 425-498) with the
two completion calls (routing, synthesis) as parameters: empty results give
the fixed message, a single result is returned verbatim, several results go
through the synthesis call with the concatenation fallback. -/
def queryAgent (tools : List Tool) (routeResp synthResp : Except (List Char) (List Char))
    (question : List Char) : List Char :=
  match routeQuery tools question routeResp with
  | [] => unableMsg
  | [r] => r.2.2
  | results =>
    match synthResp with
    | Except.ok t => pyStrip t
    | Except.error _ => synthFallback question results

/-
### Database query tool (`function_tools.py`, `database_query_tool`)
-/

/-- What the sqlite cursor yields for a successful statement: the column names
and the raw row tuples.  A raised sqlite exception is `Except.error str(e)`. -/
structure DbRaw where
  columnNames : List (List Char)
  rows : List (List (List Char))

/-- Python `dict` insertion `d[k] = v`: update in place when the key exists,
else append. -/
def dictInsert (d : List (List Char × List Char)) (k v : List Char) :
    List (List Char × List Char) :=
  if d.any (fun p => p.1 == k) then d.map (fun p => if p.1 == k then (k, v) else p)
  else d ++ [(k, v)]

/-- Row-dictionary construction of `execute_sql` (`function_tools.py` lines
298-303): `row_dict[col_name] = row[i]` for each column index. -/
def buildRowDict (colNames vals : List (List Char)) : List (List Char × List Char) :=
  (colNames.zip vals).foldl (fun d p => dictInsert d p.1 p.2) []

/-- `execute_sql` (`function_tools.py` lines 281-313) over an abstract sqlite
capability `dbExec`: on success, the row dictionaries and the column names; on
failure, the error message. -/
def executeSql (dbExec : List Char → Except (List Char) DbRaw) (sql : List Char) :
    Except (List Char) (List (List (List Char × List Char)) × List (List Char)) :=
  match dbExec sql with
  | Except.error e => Except.error e
  | Except.ok raw => Except.ok (raw.rows.map (buildRowDict raw.columnNames), raw.columnNames)

/-- The row blocks of the formatted output (`function_tools.py` lines
341-345), numbering rows from 1. -/
def formatRows : Nat → List (List (List Char × List Char)) → List Char
  | _, [] => []
  | i, row :: rest =>
    str "Row " ++ natStr i ++ str ":\n" ++
      row.foldl (fun acc p => acc ++ str "  " ++ p.1 ++ str ": " ++ p.2 ++ str "\n") [] ++
      str "\n" ++ formatRows (i + 1) rest

/-- Result formatting of `database_query_tool` (`function_tools.py` lines
331-347), including the `COLUMNS:` sentinel line consumed by PII protection. -/
def formatDbResult (sql : List Char)
    (res : List (List (List Char × List Char)) × List (List Char)) : List Char :=
  str "SQL Query: " ++ sql ++ str "\n\n" ++
    str "COLUMNS: " ++ pyReprStrList res.2 ++ str "\n\n" ++
    str "Database Results:\n" ++
    (if res.1 = [] then str "No results found." else formatRows 1 res.1)

/-- `database_query_tool` (`function_tools.py` lines 232-351).  `gen q ctx`
is `generate_sql(q, error_context=ctx)` (it never raises: its internal
handler returns `"SELECT 1"` on a completion failure), `dbExec` the sqlite
capability.  The body: generate, execute, on failure regenerate once with the
error as context and re-execute, then either format the successful result or
report the diagnostic failure string. -/
def databaseQueryTool (gen : List Char → Option (List Char) → List Char)
    (dbExec : List Char → Except (List Char) DbRaw) (q : List Char) : List Char :=
  let sql1 := gen q none
  match executeSql dbExec sql1 with
  | Except.ok res => formatDbResult sql1 res
  | Except.error e1 =>
    let sql2 := gen q (some e1)
    match executeSql dbExec sql2 with
    | Except.ok res => formatDbResult sql2 res
    | Except.error e2 =>
      str "Database query failed: " ++ e2 ++ str "\nSQL attempted: " ++ sql2

/-
### Concrete fixtures (deployed registry shape and sample behaviours)
-/

/-- The deployed six-tool catalog: three 10-K document tools (names as listed
in the routing prompt of `_route_query`) and the three function tools built by
`create_function_tools`, with sample behaviours for the capability calls. -/
def exampleRegistry : List Tool :=
  [⟨str "AAPL_10k_filing_tool", str "Apple 10-K filings", ToolKind.document,
      fun _ => Except.ok (str "aapl filing details")⟩,
   ⟨str "GOOGL_10k_filing_tool", str "Alphabet 10-K filings", ToolKind.document,
      fun _ => Except.ok (str "googl filing details")⟩,
   ⟨str "TSLA_10k_filing_tool", str "Tesla 10-K filings", ToolKind.document,
      fun _ => Except.ok (str "tsla filing details")⟩,
   ⟨str "database_query_tool", str "Query the customer database", ToolKind.function,
      fun _ => Except.ok (str "customer rows")⟩,
   ⟨str "finance_market_search_tool", str "Market data", ToolKind.function,
      fun _ => Except.ok (str "TSLA current price 250.00")⟩,
   ⟨str "pii_protection_tool", str "Mask PII", ToolKind.function,
      fun _ => Except.ok (str "masked")⟩]

/-- A document tool whose invocation raises. -/
def failTool : Tool :=
  ⟨str "alpha_search_tool", str "d", ToolKind.document,
    fun _ => Except.error (str "boom")⟩

/-- A document tool whose invocation succeeds. -/
def okTool : Tool :=
  ⟨str "beta_search_tool", str "d", ToolKind.document,
    fun _ => Except.ok (str "fine")⟩

/-- Two-tool catalog with one failing tool. -/
def isolationTools : List Tool := [failTool, okTool]

/-- Sample `generate_sql` behaviour: a broken first statement, a fixed one on
retry. -/
def sampleGen : List Char → Option (List Char) → List Char :=
  fun _ ctx =>
    match ctx with
    | none => str "SELECT bogus"
    | some _ => str "SELECT 1"

/-- Sample sqlite behaviour: only `SELECT 1` succeeds. -/
def sampleDbExec : List Char → Except (List Char) DbRaw :=
  fun sql =>
    if sql == str "SELECT 1" then Except.ok ⟨[str "1"], [[str "1"]]⟩
    else Except.error (str "no such column: bogus")

/-- Columns of the leaking-phone example. -/
def phoneLeakCols : List (List Char) := [str "id", str "phone"]

/-- The sentinel-format database output for one row whose `phone` cell is the
four-digit value `4567`. -/
def phoneLeakResults : List Char :=
  formatDbResult (str "SELECT id, phone FROM customers")
    ([[(str "id", str "1"), (str "phone", str "4567")]], phoneLeakCols)

/-- Columns with no PII name. -/
def cleanCols : List (List Char) := [str "id", str "amount"]

/-
### Helper lemmas
-/

theorem afterRun_of_error {q e : List Char} {t : Tool}
    (h : t.toolFn q = Except.error e) :
    afterRun q t = str "Error: " ++ e := by
  unfold afterRun
  rw [h]

theorem executeOne_of_isDispatch {q : List Char} {t : Tool}
    (h : isDispatch t = true) :
    executeOne q t = some (t.name, t.desc, afterRun q t) := by
  obtain ⟨nm, ds, k, f⟩ := t
  cases k with
  | document => rfl
  | function =>
    simp only [isDispatch] at h
    simp only [executeOne]
    cases hdb : occurs (str "database") (lowerStr nm) <;>
      cases hm : occurs (str "market") (lowerStr nm) <;>
        cases hp : occurs (str "pii") (lowerStr nm) <;>
          simp_all

/-
### Claim theorems
-/

/-- C1: the code violates the claimed property.  `phone` is a flagged PII
column, yet for the row value `4567` the masked rendering produced by
`pii_protection_tool` still contains the raw cell value verbatim: the phone
rule keeps the last four digits, so the mask `***-***-4567` embeds the whole
original value. -/
theorem c1_phone_value_survives_masking :
    piiNameHit (str "phone") = true ∧
    occurs (str "4567")
      (piiProtectionTool phoneLeakResults (pyReprStrList phoneLeakCols)) = true :=
  ⟨rfl, by decide⟩

/-- C3: dead-branch divergence at the empty value.  `mask_field_value` returns
an empty personal-name value unchanged (the early `if not value: return
str(value)` fires before the name branch), so the claimed `"****"` for empty
values is never produced. -/
theorem c3_empty_name_value_unchanged :
    maskFieldValue (str "first_name") (str "") = str "" ∧
    maskFieldValue (str "first_name") (str "") ≠ str "****" :=
  ⟨rfl, by decide⟩

/-- C10: the two PII-detection implementations — `detect_pii_fields` nested in
`pii_protection_tool` and `AgentCoordinator._detect_pii_fields` — agree on
every list of field names (they flag exactly the same fields, in the same
order, hence the same set). -/
theorem c10_detectors_agree (fieldNames : List (List Char)) :
    detectPiiFields fieldNames = detectPiiFieldsCoordinator fieldNames := rfl

/-- C9 counterexample: a malformed column-name encoding (`[[[`) makes
`ast.literal_eval` fail, but the regex/comma fallback recovers a garbage
column list with no PII match, so `pii_protection_tool` returns the data
unchanged — silently, with no error-flagged notice — contradicting the claim
that a parse failure never yields the data without a notice. -/
theorem c9_silent_parse_failure :
    pyParseLiteral (str "[[[") = none ∧
    piiProtectionTool (str "Row 1:\n  id: 1") (str "[[[") = str "Row 1:\n  id: 1" :=
  ⟨rfl, rfl⟩

/-- C9 (amended): only when the masking routine itself raises — here, when the
column encoding parses to a non-list value, which makes the field iteration
raise — is the underlying data returned with the explicit error notice
appended; the data is never dropped in that case.  Mere literal-parse failures
are recovered by the regex/comma fallback and can return the data unchanged
without any notice. -/
theorem c9_raise_appends_notice (d colsStr : List Char) (n : Nat)
    (hp : parseColsVal colsStr = PyVal.intVal n) :
    piiProtectionTool d colsStr = d ++ piiErrorNotice intIterErrorMsg := by
  unfold piiProtectionTool
  rw [hp]

/-- C9 witness: the non-list encoding `5` makes the routine raise, and the
data comes back with the notice appended. -/
theorem c9_raise_appends_notice_witness :
    parseColsVal (str "5") = PyVal.intVal 5 ∧
    piiProtectionTool (str "abc") (str "5") = str "abc" ++ piiErrorNotice intIterErrorMsg :=
  ⟨by decide, c9_raise_appends_notice (str "abc") (str "5") 5 (by decide)⟩

/-- C8: when no parsed column name matches the PII lexicon (no exact
lower-cased match and no lexicon entry as substring), `pii_protection_tool`
returns the database-results string exactly unchanged. -/
theorem c8_masking_noop_without_pii (d colsStr : List Char) (cols : List (List Char))
    (hp : parseColsVal colsStr = PyVal.strs cols)
    (hclean : ∀ c ∈ cols, piiNameHit c = false) :
    piiProtectionTool d colsStr = d := by
  unfold piiProtectionTool
  rw [hp]
  have hdet : detectPiiFields cols = [] := by
    unfold detectPiiFields
    exact List.filter_eq_nil_iff.mpr (by simpa using hclean)
  unfold applyMasking
  simp [hdet]

/-- C8 witness: the PII-free column list `['id', 'amount']` leaves the data
untouched. -/
theorem c8_masking_noop_without_pii_witness :
    parseColsVal (pyReprStrList cleanCols) = PyVal.strs cleanCols ∧
    piiProtectionTool (str "whatever data") (pyReprStrList cleanCols) = str "whatever data" :=
  ⟨by decide,
   c8_masking_noop_without_pii (str "whatever data") (pyReprStrList cleanCols) cleanCols
     (by decide) (by decide)⟩

/-- C6: when the first generated SQL statement fails to execute,
`database_query_tool` regenerates exactly once, passing the first error
message as the generation context; the final result is the formatted output
of the second execution if it succeeds, and otherwise the diagnostic failure
string naming the second error and the retried SQL — never a raised
exception. -/
theorem c6_sql_retry_once (gen : List Char → Option (List Char) → List Char)
    (dbExec : List Char → Except (List Char) DbRaw) (q e1 : List Char)
    (h1 : executeSql dbExec (gen q none) = Except.error e1) :
    databaseQueryTool gen dbExec q =
      match executeSql dbExec (gen q (some e1)) with
      | Except.ok res => formatDbResult (gen q (some e1)) res
      | Except.error e2 =>
        str "Database query failed: " ++ e2 ++ str "\nSQL attempted: " ++ gen q (some e1) := by
  simp only [databaseQueryTool]
  rw [h1]

/-- C6 witness: a first statement that fails, a retry that succeeds; the
result is the formatted second execution. -/
theorem c6_sql_retry_once_witness :
    executeSql sampleDbExec (sampleGen (str "list ids") none) =
      Except.error (str "no such column: bogus") ∧
    databaseQueryTool sampleGen sampleDbExec (str "list ids") =
      formatDbResult (str "SELECT 1") ([[(str "1", str "1")]], [str "1"]) := by
  refine ⟨rfl, ?_⟩
  rw [c6_sql_retry_once sampleGen sampleDbExec (str "list ids")
    (str "no such column: bogus") rfl]
  rfl

/-- C7: when routing yields exactly one tool result, `query()` returns that
tool's output string verbatim — independent of the synthesis completion
outcome, which is never consulted. -/
theorem c7_single_result_passthrough (tools : List Tool)
    (rr sr : Except (List Char) (List Char)) (q n d res : List Char)
    (h : routeQuery tools q rr = [(n, d, res)]) :
    queryAgent tools rr sr q = res := by
  unfold queryAgent
  rw [h]

/-- C7 witness: the market tool alone is selected, and its raw payload is the
final answer even though the synthesis call would fail. -/
theorem c7_single_result_passthrough_witness :
    routeQuery exampleRegistry (str "tesla price today") (Except.ok (str "4")) =
      [(str "finance_market_search_tool", str "Market data", str "TSLA current price 250.00")] ∧
    queryAgent exampleRegistry (Except.ok (str "4")) (Except.error (str "no synth"))
      (str "tesla price today") = str "TSLA current price 250.00" :=
  ⟨rfl,
   c7_single_result_passthrough exampleRegistry (Except.ok (str "4"))
     (Except.error (str "no synth")) (str "tesla price today")
     (str "finance_market_search_tool") (str "Market data")
     (str "TSLA current price 250.00") rfl⟩

/-- C2 counterexample: a raised completion call during routing is caught by
the outer handler of `_route_query`, which returns the empty selection — the
lexical fallback never runs — and `query()` surfaces the fixed
unable-to-process message; the same query with merely unparsable completion
output does reach the fallback and selects the database tool. -/
theorem c2_raise_yields_empty_selection :
    routeQuery exampleRegistry (str "list customers") (Except.error (str "boom")) = [] ∧
    queryAgent exampleRegistry (Except.error (str "boom")) (Except.ok (str "s"))
      (str "list customers") = unableMsg ∧
    routeQuery exampleRegistry (str "list customers") (Except.ok (str "junk")) =
      [(str "database_query_tool", str "Query the customer database", str "customer rows")] :=
  ⟨rfl, rfl, by decide⟩

/-- C2 (amended): the deterministic lexical fallback resolves tool selection
only when the completion call returns output from which no in-range index can
be parsed; when the completion call itself raises, `_route_query` returns an
empty selection (surfaced by the caller as the fixed message), and no fallback
runs. -/
theorem c2_fallback_on_unparsable_only (tools : List Tool) (q txt e : List Char) :
    routeQuery tools q (Except.error e) = [] ∧
    (validIndices tools txt = [] →
      routeQuery tools q (Except.ok txt) =
        executeSelected tools q (sortDedup (lexicalFallback tools q))) := by
  constructor
  · rfl
  · intro h
    simp only [routeQuery]
    rw [h]
    simp

/-- C2 witness: with unparsable completion output the routing result is the
executed fallback selection; with a raised call it is empty. -/
theorem c2_fallback_on_unparsable_only_witness :
    routeQuery exampleRegistry (str "list customers") (Except.error (str "err")) = [] ∧
    routeQuery exampleRegistry (str "list customers") (Except.ok (str "none")) =
      executeSelected exampleRegistry (str "list customers")
        (sortDedup (lexicalFallback exampleRegistry (str "list customers"))) :=
  ⟨(c2_fallback_on_unparsable_only exampleRegistry (str "list customers")
      (str "none") (str "err")).1,
   (c2_fallback_on_unparsable_only exampleRegistry (str "list customers")
      (str "none") (str "err")).2 (by decide)⟩

/-- C4 counterexample: in the lexical fallback, the query `"apple"` — which
contains none of the business/financial context keywords `company`,
`business`, `strategy`, `revenue` — selects the AAPL 10-K document tool all
the same: the outer keyword guard already contains the company names and
tickers, so naming the company alone selects its document tool. -/
theorem c4_company_name_alone_selects :
    lexicalFallback exampleRegistry (str "apple") = [0] ∧
    (exampleRegistry.get? 0).map Tool.name = some (str "AAPL_10k_filing_tool") ∧
    occurs (str "company") (lowerStr (str "apple")) = false ∧
    occurs (str "business") (lowerStr (str "apple")) = false ∧
    occurs (str "strategy") (lowerStr (str "apple")) = false ∧
    occurs (str "revenue") (lowerStr (str "apple")) = false :=
  ⟨by decide, rfl, rfl, rfl, rfl, rfl⟩

/-- C4 (amended): for an AAPL 10-K document tool (a tool name containing
`aapl` and `10k`/`filing`, not containing `database`, `market`, `googl` or
`tsla`), the lexical fallback fires exactly when the query mentions the
company name or ticker — no additional business-context keyword is required,
because the outer keyword guard already includes the company names and
tickers. -/
theorem c4_company_mention_suffices (name q : List Char)
    (h10k : (occurs (str "10k") (lowerStr name) || occurs (str "filing") (lowerStr name)) = true)
    (haapl : occurs (str "aapl") (lowerStr name) = true)
    (hdb : occurs (str "database") (lowerStr name) = false)
    (hmkt : occurs (str "market") (lowerStr name) = false)
    (hgoogl : occurs (str "googl") (lowerStr name) = false)
    (htsla : occurs (str "tsla") (lowerStr name) = false) :
    fallbackHit (lowerStr q) (lowerStr name) = true ↔
      (occurs (str "apple") (lowerStr q) = true ∨
       occurs (str "aapl") (lowerStr q) = true) := by
  unfold fallbackHit
  rw [hdb, hmkt, h10k, haapl, hgoogl, htsla]
  simp only [Bool.false_and, Bool.true_and]
  constructor
  · intro h
    by_cases houter : (docOuterKeywords.any fun kw => occurs kw (lowerStr q)) = true
    · rw [if_pos houter] at h
      by_cases hx : (occurs (str "apple") (lowerStr q) || occurs (str "aapl") (lowerStr q)) = true
      · exact Bool.or_eq_true _ _ |>.mp hx
      · rw [if_neg hx] at h
        simp at h
    · rw [if_neg houter] at h
      simp at h
  · intro h
    have hx : (occurs (str "apple") (lowerStr q) || occurs (str "aapl") (lowerStr q)) = true :=
      Bool.or_eq_true _ _ |>.mpr h
    have houter : (docOuterKeywords.any fun kw => occurs kw (lowerStr q)) = true := by
      rcases h with h | h
      · exact List.any_eq_true.mpr (Exists.intro (str "apple") (And.intro (by decide) h))
      · exact List.any_eq_true.mpr (Exists.intro (str "aapl") (And.intro (by decide) h))
    rw [if_pos houter, if_pos hx]
    simp

/-- C4 witness: the deployed AAPL tool name with the bare query `"apple"`. -/
theorem c4_company_mention_suffices_witness :
    occurs (str "aapl") (lowerStr (str "AAPL_10k_filing_tool")) = true ∧
    (fallbackHit (lowerStr (str "apple")) (lowerStr (str "AAPL_10k_filing_tool")) = true ↔
      (occurs (str "apple") (lowerStr (str "apple")) = true ∨
       occurs (str "aapl") (lowerStr (str "apple")) = true)) :=
  ⟨by decide,
   c4_company_mention_suffices (str "AAPL_10k_filing_tool") (str "apple")
     (by decide) (by decide) (by decide) (by decide) (by decide) (by decide)⟩

/-- C5: a raised exception in one selected tool's invocation is recorded as
that tool's `"Error: ..."` entry carrying the message, and every other
selected (dispatchable) tool still contributes its own entry to the results —
one tool's failure never aborts the batch. -/
theorem c5_tool_failure_isolated (tools : List Tool) (q : List Char) (sel : List Nat)
    (i : Nat) (t : Tool) (e : List Char)
    (hmem : i ∈ sel) (hget : tools.get? i = some t) (hdisp : isDispatch t = true)
    (herr : t.toolFn q = Except.error e) :
    (t.name, t.desc, str "Error: " ++ e) ∈ executeSelected tools q sel ∧
    ∀ j u, j ∈ sel → tools.get? j = some u → isDispatch u = true →
      (u.name, u.desc, afterRun q u) ∈ executeSelected tools q sel := by
  constructor
  · unfold executeSelected
    refine List.mem_filterMap.mpr ⟨i, hmem, ?_⟩
    rw [hget]
    have h1 := executeOne_of_isDispatch (q := q) hdisp
    rw [afterRun_of_error herr] at h1
    exact h1
  · intro j u hj hgj hdu
    unfold executeSelected
    refine List.mem_filterMap.mpr ⟨j, hj, ?_⟩
    rw [hgj]
    exact executeOne_of_isDispatch (q := q) hdu

/-- C5 witness: of two selected document tools the first raises; its error
entry and the second tool's normal entry are both in the results. -/
theorem c5_tool_failure_isolated_witness :
    (str "alpha_search_tool", str "d", str "Error: " ++ str "boom") ∈
      executeSelected isolationTools (str "hi") [0, 1] ∧
    (str "beta_search_tool", str "d", afterRun (str "hi") okTool) ∈
      executeSelected isolationTools (str "hi") [0, 1] :=
  ⟨(c5_tool_failure_isolated isolationTools (str "hi") [0, 1] 0 failTool (str "boom")
      (by decide) rfl rfl rfl).1,
   (c5_tool_failure_isolated isolationTools (str "hi") [0, 1] 0 failTool (str "boom")
      (by decide) rfl rfl rfl).2 1 okTool (by decide) rfl rfl⟩
